import Mathlib

/-!
# Verification of the Backyard Flyer controller

A shallow embedding of `src/backyard_flyer.py`: the flight-state
enumeration, the controller's mutable fields, the waypoint planner
`calculate_box`, the transition helpers, and the three telemetry
callbacks (`local_position_callback`, `velocity_callback`,
`state_callback`).  Coordinates are modelled as rationals; every
numeric literal of the source (0.25, 0.1, 0.01, 1.0, 3.0, 10.0) is
exact as a rational.  `np.allclose(a, b, rtol=0.0, atol=0.25)` is the
componentwise check `|a_i - b_i| <= 1/4`; the horizontal-speed guard
`np.linalg.norm(v[0:2]) < 1.0` is embedded as `v0^2 + v1^2 < 1`,
which is equivalent since both sides are nonnegative.  The list pop
`all_waypoints.pop(0)` can raise on an empty list, so the handlers
that may reach it return `Option`; `none` is the (claimed
unreachable) empty-pop error.
-/

namespace BackyardFlyer

/-- The `States` enumeration of the source (values 0..5). -/
inductive States where
  | MANUAL
  | ARMING
  | TAKEOFF
  | WAYPOINT
  | LANDING
  | DISARMING
deriving DecidableEq, Repr

/-- A 3-component vector, indexed as the numpy arrays of the source:
`c0` = index 0 (north / longitude), `c1` = index 1 (east / latitude),
`c2` = index 2 (down or altitude, per the convention of each reading). -/
structure Vec3 where
  c0 : ℚ
  c1 : ℚ
  c2 : ℚ
deriving DecidableEq, Repr

/-- The telemetry snapshot visible to a handler at invocation time:
`self.local_position`, `self.local_velocity`, `self.global_position`,
`self.global_home`. -/
structure Telemetry where
  localPos : Vec3
  localVel : Vec3
  globalPos : Vec3
  globalHome : Vec3
deriving DecidableEq, Repr

/-- The side-effecting vehicle commands the controller issues. -/
inductive Cmd where
  | take_control
  | arm
  | set_home_position (lon lat alt : ℚ)
  | takeoff (alt : ℚ)
  | cmd_position (north east altitude heading : ℚ)
  | land
  | disarm
  | release_control
  | stop
deriving DecidableEq, Repr

/-- The mutable fields of the `BackyardFlyer` instance that the
callbacks read and write. -/
structure FlyerState where
  target_position : Vec3
  all_waypoints : List Vec3
  in_mission : Bool
  flight_state : States
deriving DecidableEq, Repr

/-- `self.square_size = 10.0` from `__init__`. -/
def square_size : ℚ := 10

/-- The state set up by `__init__`: target `[0,0,0]`, no waypoints,
`in_mission = True`, flight state `MANUAL`. -/
def initState : FlyerState :=
  { target_position := ⟨0, 0, 0⟩
    all_waypoints := []
    in_mission := true
    flight_state := States.MANUAL }

/-- Lines 45-46: copy the local position and multiply its index-2
component by -1. -/
def invertAlt (p : Vec3) : Vec3 :=
  { p with c2 := p.c2 * (-1) }

/-- `np.allclose(a, b, rtol=0.0, atol=0.25, equal_nan=False)`:
with `rtol = 0` this is `|a_i - b_i| <= 0.25` for every component. -/
def allclose (a b : Vec3) : Prop :=
  |a.c0 - b.c0| ≤ 1/4 ∧ |a.c1 - b.c1| ≤ 1/4 ∧ |a.c2 - b.c2| ≤ 1/4

instance (a b : Vec3) : Decidable (allclose a b) := by
  unfold allclose; infer_instance

/-- Line 49: the position-reached test of `local_position_callback`,
applied to the target and the raw local position whose altitude
component was sign-inverted on line 46. -/
def position_reached (target lp : Vec3) : Prop :=
  allclose target (invertAlt lp)

instance (target lp : Vec3) : Decidable (position_reached target lp) := by
  unfold position_reached; infer_instance

/-- Lines 83-91: `calculate_box(start_point, size)`. -/
def calculate_box (start_point : Vec3) (size : ℚ) : List Vec3 :=
  let waypoint_1 : Vec3 := { start_point with c0 := start_point.c0 + size }
  let waypoint_2 : Vec3 := { waypoint_1 with c1 := waypoint_1.c1 + size }
  let waypoint_3 : Vec3 := { waypoint_2 with c0 := waypoint_2.c0 - size }
  [waypoint_1, waypoint_2, waypoint_3, start_point]

/-- Lines 93-102: `arming_transition` — take control, arm, set home
to the current global position, state := ARMING. -/
def arming_transition (s : FlyerState) (tel : Telemetry) :
    FlyerState × List Cmd :=
  ({ s with flight_state := States.ARMING },
   [Cmd.take_control, Cmd.arm,
    Cmd.set_home_position tel.globalPos.c0 tel.globalPos.c1 tel.globalPos.c2])

/-- Lines 104-109: `takeoff_transition` — set the altitude component
of the target to 3.0, issue takeoff, state := TAKEOFF. -/
def takeoff_transition (s : FlyerState) : FlyerState × List Cmd :=
  let target_altitude : ℚ := 3
  ({ s with
      target_position := { s.target_position with c2 := target_altitude }
      flight_state := States.TAKEOFF },
   [Cmd.takeoff target_altitude])

/-- Lines 125-128: `landing_transition`. -/
def landing_transition (s : FlyerState) : FlyerState × List Cmd :=
  ({ s with flight_state := States.LANDING }, [Cmd.land])

/-- Lines 130-133: `disarming_transition`. -/
def disarming_transition (s : FlyerState) : FlyerState × List Cmd :=
  ({ s with flight_state := States.DISARMING }, [Cmd.disarm])

/-- Lines 135-148: `manual_transition` — release control, stop,
clear `in_mission`, state := MANUAL. -/
def manual_transition (s : FlyerState) : FlyerState × List Cmd :=
  ({ s with in_mission := false, flight_state := States.MANUAL },
   [Cmd.release_control, Cmd.stop])

/-- Python's `list.pop(0)`: the head and the remaining list, or the
index-error on an empty list. -/
def pop0 {α : Type} : List α → Option (α × List α)
  | [] => none
  | a :: rest => some (a, rest)

/-- `np.linalg.norm(v[0:2])^2`; the guard `norm < 1.0` of line 122 is
`horizontal_speed_sq v < 1` since both sides of the original
comparison are nonnegative. -/
def horizontal_speed_sq (v : Vec3) : ℚ :=
  v.c0 ^ 2 + v.c1 ^ 2

/-- Lines 111-123: `waypoint_transition`.  If the waypoint list is
non-empty (Python truthiness), pop its front into the target and
issue a positional command with heading 0; otherwise land when the
horizontal speed is below 1.0.  `none` is the empty-list pop error. -/
def waypoint_transition (s : FlyerState) (tel : Telemetry) :
    Option (FlyerState × List Cmd) :=
  if s.all_waypoints ≠ [] then
    match pop0 s.all_waypoints with
    | none => none
    | some (w, rest) =>
        some ({ s with target_position := w, all_waypoints := rest },
              [Cmd.cmd_position w.c0 w.c1 w.c2 0])
  else
    if horizontal_speed_sq tel.localVel < 1 then
      some (landing_transition s)
    else
      some (s, [])

/-- Lines 39-58: `local_position_callback`. -/
def local_position_callback (s : FlyerState) (tel : Telemetry) :
    Option (FlyerState × List Cmd) :=
  if position_reached s.target_position tel.localPos then
    if s.flight_state = States.TAKEOFF then
      let s1 := { s with
        all_waypoints := calculate_box s.target_position square_size
        flight_state := States.WAYPOINT }
      waypoint_transition s1 tel
    else if s.flight_state = States.WAYPOINT then
      waypoint_transition s tel
    else
      some (s, [])
  else
    some (s, [])

/-- Lines 60-66: `velocity_callback`. -/
def velocity_callback (s : FlyerState) (tel : Telemetry) :
    FlyerState × List Cmd :=
  if s.flight_state = States.LANDING then
    if tel.globalPos.c2 - tel.globalHome.c2 < 1/10 ∧ |tel.localPos.c2| < 1/100
    then disarming_transition s
    else (s, [])
  else (s, [])

/-- Lines 68-81: `state_callback`. -/
def state_callback (s : FlyerState) (tel : Telemetry) :
    FlyerState × List Cmd :=
  if s.in_mission = false then (s, [])
  else if s.flight_state = States.MANUAL then arming_transition s tel
  else if s.flight_state = States.ARMING then takeoff_transition s
  else if s.flight_state = States.DISARMING then manual_transition s
  else (s, [])

/-- The three telemetry event kinds the controller registers handlers
for (`MsgID.LOCAL_POSITION`, `MsgID.LOCAL_VELOCITY`, `MsgID.STATE`). -/
inductive EvKind where
  | positionEv
  | velocityEv
  | statusEv
deriving DecidableEq, Repr

/-- Dispatch one telemetry event to the matching handler. -/
def step (s : FlyerState) (tel : Telemetry) : EvKind → Option (FlyerState × List Cmd)
  | EvKind.positionEv => local_position_callback s tel
  | EvKind.velocityEv => some (velocity_callback s tel)
  | EvKind.statusEv => some (state_callback s tel)

/-- An event: a kind together with the telemetry snapshot current at
dispatch time. -/
abbrev Event := EvKind × Telemetry

/-- Run a sequence of events, concatenating the issued commands. -/
def run : FlyerState → List Event → Option (FlyerState × List Cmd)
  | s, [] => some (s, [])
  | s, (k, tel) :: rest =>
    match step s tel k with
    | none => none
    | some (s1, cs) =>
      match run s1 rest with
      | none => none
      | some (s2, cs2) => some (s2, cs ++ cs2)

/-- Run a sequence of events, recording the flight state after each
event together with the final controller state. -/
def runTrace : FlyerState → List Event → Option (List States × FlyerState)
  | s, [] => some ([], s)
  | s, (k, tel) :: rest =>
    match step s tel k with
    | none => none
    | some (s1, _) =>
      match runTrace s1 rest with
      | none => none
      | some (l, sf) => some (s1.flight_state :: l, sf)

/-- A telemetry snapshot with every reading zero, used to instantiate
universally quantified telemetry arguments at a concrete input. -/
def telZero : Telemetry :=
  { localPos := ⟨0, 0, 0⟩
    localVel := ⟨0, 0, 0⟩
    globalPos := ⟨0, 0, 0⟩
    globalHome := ⟨0, 0, 0⟩ }

/-- C2: `calculate_box` returns exactly the 4 points
start+north, +east, −north, start; consecutive points along the
traversal differ by exactly `size` on exactly one axis; the altitude
component equals the start's altitude in all 4 points; and
`calculate_box (0,0,3) 10 = [(10,0,3), (10,10,3), (0,10,3), (0,0,3)]`. -/
theorem calculate_box_square_path :
    (∀ (start : Vec3) (size : ℚ),
      calculate_box start size =
        [⟨start.c0 + size, start.c1, start.c2⟩,
         ⟨start.c0 + size, start.c1 + size, start.c2⟩,
         ⟨start.c0, start.c1 + size, start.c2⟩,
         start] ∧
      (calculate_box start size).length = 4 ∧
      (calculate_box start size).map Vec3.c2 =
        [start.c2, start.c2, start.c2, start.c2]) ∧
    (∀ (start : Vec3) (size : ℚ) (p1 p2 p3 p4 : Vec3),
      calculate_box start size = [p1, p2, p3, p4] →
        p4 = start ∧
        (p1.c0 - start.c0 = size ∧ p1.c1 = start.c1 ∧ p1.c2 = start.c2) ∧
        (p2.c1 - p1.c1 = size ∧ p2.c0 = p1.c0 ∧ p2.c2 = p1.c2) ∧
        (p3.c0 - p2.c0 = -size ∧ p3.c1 = p2.c1 ∧ p3.c2 = p2.c2) ∧
        (p4.c1 - p3.c1 = -size ∧ p4.c0 = p3.c0 ∧ p4.c2 = p3.c2)) ∧
    calculate_box ⟨0, 0, 3⟩ 10 =
      [⟨10, 0, 3⟩, ⟨10, 10, 3⟩, ⟨0, 10, 3⟩, ⟨0, 0, 3⟩] := by
  refine ⟨fun start size => ⟨?_, ?_, ?_⟩, fun start size p1 p2 p3 p4 h => ?_, ?_⟩
  · simp [calculate_box]
  · simp [calculate_box]
  · simp [calculate_box]
  · simp only [calculate_box, List.cons.injEq, and_true] at h
    obtain ⟨h1, h2, h3, h4⟩ := h
    subst h1 h2 h3 h4
    refine ⟨rfl, ⟨by ring, by ring, by ring⟩, ⟨by ring, by ring, by ring⟩,
      ⟨by ring, by ring, by ring⟩, ⟨by ring, by ring, by ring⟩⟩
  · norm_num [calculate_box]

/-- Witness for the signed-difference part of
`calculate_box_square_path` at start `(0,0,3)` and size 10. -/
theorem calculate_box_square_path_witness :
    (⟨0, 0, 3⟩ : Vec3) = ⟨0, 0, 3⟩ ∧
    (((10 : ℚ) - 0 = 10 ∧ (0 : ℚ) = 0 ∧ (3 : ℚ) = 3) ∧
     ((10 : ℚ) - 0 = 10 ∧ (10 : ℚ) = 10 ∧ (3 : ℚ) = 3) ∧
     ((0 : ℚ) - 10 = -10 ∧ (10 : ℚ) = 10 ∧ (3 : ℚ) = 3) ∧
     ((0 : ℚ) - 10 = -10 ∧ (0 : ℚ) = 0 ∧ (3 : ℚ) = 3)) :=
  calculate_box_square_path.2.1 ⟨0, 0, 3⟩ 10
    ⟨10, 0, 3⟩ ⟨10, 10, 3⟩ ⟨0, 10, 3⟩ ⟨0, 0, 3⟩
    (by norm_num [calculate_box])

/-- C3: the position-reached predicate of `local_position_callback`
is the componentwise check `|target_i - current_i| ≤ 0.25` where the
current reading is the raw local position with its altitude component
sign-inverted; current `(0.2, 0.2, 0.2)` (raw `(0.2, 0.2, -0.2)`) is
reached for target `(0,0,0)` while `(0.3, 0, 0)` is not, and the
reached example has squared Euclidean distance above `0.25^2`, so the
check is not a Euclidean-distance check. -/
theorem position_reached_componentwise :
    (∀ target lp : Vec3,
      position_reached target lp ↔
        (|target.c0 - lp.c0| ≤ 1/4 ∧ |target.c1 - lp.c1| ≤ 1/4 ∧
         |target.c2 - (-lp.c2)| ≤ 1/4)) ∧
    position_reached ⟨0, 0, 0⟩ ⟨1/5, 1/5, -(1/5)⟩ ∧
    ¬ position_reached ⟨0, 0, 0⟩ ⟨3/10, 0, 0⟩ ∧
    ((1/5 : ℚ) - 0) ^ 2 + ((1/5 : ℚ) - 0) ^ 2 + ((1/5 : ℚ) - 0) ^ 2 >
      (1/4) ^ 2 := by
  refine ⟨fun target lp => ?_,
    by norm_num [position_reached, allclose, invertAlt, abs_le],
    by norm_num [position_reached, allclose, invertAlt, abs_le],
    by norm_num⟩
  simp only [position_reached, allclose, invertAlt, mul_neg_one]

/-- C10: `takeoff_transition` changes only the altitude component of
the target position (to 3.0), and from the initial state two status
events (arming, then takeoff) always leave the target at `(0, 0, 3)`. -/
theorem takeoff_transition_target_frame :
    ∀ (s : FlyerState) (t1 t2 : Telemetry),
      (takeoff_transition s).1.target_position =
        ⟨s.target_position.c0, s.target_position.c1, 3⟩ ∧
      (takeoff_transition s).1.all_waypoints = s.all_waypoints ∧
      (takeoff_transition s).1.in_mission = s.in_mission ∧
      (state_callback (state_callback initState t1).1 t2).1.target_position =
        ⟨0, 0, 3⟩ := by
  intro s t1 t2
  exact ⟨rfl, rfl, rfl, rfl⟩

/-- C8: a velocity event delivered while the flight state is not
LANDING changes no state and issues no command. -/
theorem velocity_callback_inactive_outside_landing :
    ∀ (s : FlyerState) (tel : Telemetry),
      s.flight_state ≠ States.LANDING →
      velocity_callback s tel = (s, []) := by
  intro s tel h
  unfold velocity_callback
  rw [if_neg]
  exact fun hc => h hc

/-- Witness for C8 at a concrete TAKEOFF state. -/
theorem velocity_callback_inactive_outside_landing_witness :
    velocity_callback ⟨⟨0, 0, 0⟩, [], true, States.TAKEOFF⟩ telZero =
      (⟨⟨0, 0, 0⟩, [], true, States.TAKEOFF⟩, []) :=
  velocity_callback_inactive_outside_landing _ _ (by decide)

/-- C6: for every controller state and telemetry snapshot, neither
`waypoint_transition` nor any dispatched event reaches the
empty-queue pop error (`none`): the pop is guarded by the
non-emptiness test. -/
theorem no_empty_pop_error :
    ∀ (s : FlyerState) (tel : Telemetry) (k : EvKind),
      (waypoint_transition s tel).isSome = true ∧
      (step s tel k).isSome = true := by
  have hw : ∀ (s : FlyerState) (tel : Telemetry),
      (waypoint_transition s tel).isSome = true := by
    intro s tel
    unfold waypoint_transition
    rcases h : s.all_waypoints with _ | ⟨w, rest⟩
    · simp only [h, ne_eq, not_true_eq_false, if_false]
      split_ifs <;> simp
    · simp [h, pop0]
  intro s tel k
  refine ⟨hw s tel, ?_⟩
  cases k with
  | positionEv =>
      unfold step local_position_callback
      split_ifs <;> first | exact hw _ _ | simp
  | velocityEv => simp [step]
  | statusEv => simp [step]

/-- `waypoint_transition` never touches the mission flag. -/
lemma waypoint_transition_preserves_in_mission
    (s : FlyerState) (tel : Telemetry) (r : FlyerState × List Cmd)
    (h : waypoint_transition s tel = some r) :
    r.1.in_mission = s.in_mission := by
  unfold waypoint_transition at h
  rcases hw : s.all_waypoints with _ | ⟨w, rest⟩ <;> rw [hw] at h
  · rw [if_neg (by simp)] at h
    split_ifs at h
    · simp only [Option.some.injEq] at h
      subst h
      rfl
    · simp only [Option.some.injEq] at h
      subst h
      rfl
  · rw [if_pos (by simp)] at h
    simp only [pop0, Option.some.injEq] at h
    subst h
    rfl

/-- `local_position_callback` never touches the mission flag. -/
lemma local_position_callback_preserves_in_mission
    (s : FlyerState) (tel : Telemetry) (r : FlyerState × List Cmd)
    (h : local_position_callback s tel = some r) :
    r.1.in_mission = s.in_mission := by
  unfold local_position_callback at h
  split_ifs at h
  · exact waypoint_transition_preserves_in_mission
      { s with all_waypoints := calculate_box s.target_position square_size,
               flight_state := States.WAYPOINT } tel r h
  · exact waypoint_transition_preserves_in_mission _ _ _ h
  · simp only [Option.some.injEq] at h
    subst h
    rfl
  · simp only [Option.some.injEq] at h
    subst h
    rfl

/-- `velocity_callback` never touches the mission flag. -/
lemma velocity_callback_preserves_in_mission
    (s : FlyerState) (tel : Telemetry) :
    (velocity_callback s tel).1.in_mission = s.in_mission := by
  unfold velocity_callback
  split_ifs <;> rfl

/-- C5: once the mission flag `in_mission` is false no event ever sets
it back, and a status event delivered with the flag false returns the
state unchanged and issues no command. -/
theorem in_mission_clear_is_permanent :
    ∀ (s : FlyerState) (tel : Telemetry) (k : EvKind)
      (r : FlyerState × List Cmd),
      step s tel k = some r → s.in_mission = false →
      r.1.in_mission = false ∧ (k = EvKind.statusEv → r = (s, [])) := by
  intro s tel k r hr hm
  cases k with
  | positionEv =>
      refine ⟨?_, fun h => by cases h⟩
      rw [(local_position_callback_preserves_in_mission s tel r hr : _), hm]
  | velocityEv =>
      simp only [step, Option.some.injEq] at hr
      subst hr
      exact ⟨by rw [velocity_callback_preserves_in_mission s tel, hm],
             fun h => by cases h⟩
  | statusEv =>
      have hs : state_callback s tel = (s, []) := by
        unfold state_callback
        rw [if_pos hm]
      simp only [step, hs, Option.some.injEq] at hr
      subst hr
      exact ⟨hm, fun _ => rfl⟩

/-- Witness for C5: a cleared-flag state absorbs a status event. -/
theorem in_mission_clear_is_permanent_witness :
    ((⟨⟨0, 0, 0⟩, [], false, States.MANUAL⟩ : FlyerState), ([] : List Cmd)).1.in_mission
        = false ∧
    (EvKind.statusEv = EvKind.statusEv →
      ((⟨⟨0, 0, 0⟩, [], false, States.MANUAL⟩ : FlyerState), ([] : List Cmd)) =
        (⟨⟨0, 0, 0⟩, [], false, States.MANUAL⟩, [])) :=
  in_mission_clear_is_permanent ⟨⟨0, 0, 0⟩, [], false, States.MANUAL⟩ telZero
    EvKind.statusEv (⟨⟨0, 0, 0⟩, [], false, States.MANUAL⟩, []) rfl rfl

/-- Counterexample for C4: in LANDING, with the altitude gap and the
local-position altitude both within tolerance, the handler disarms
even though the vertical *speed* reading is 5, far above 0.01 — the
guard of line 65 reads `local_position[2]`, not the vertical speed. -/
theorem landing_disarm_ignores_vertical_speed :
    velocity_callback ⟨⟨0, 0, 3⟩, [], true, States.LANDING⟩
        { localPos := ⟨0, 0, 0⟩, localVel := ⟨0, 0, 5⟩,
          globalPos := ⟨0, 0, 0⟩, globalHome := ⟨0, 0, 0⟩ } =
      (⟨⟨0, 0, 3⟩, [], true, States.DISARMING⟩, [Cmd.disarm]) ∧
    ¬ |(⟨0, 0, 5⟩ : Vec3).c2| < 1/100 := by
  constructor
  · norm_num [velocity_callback, disarming_transition]
  · norm_num

/-- C4 as amended: in LANDING, a velocity event disarms iff the
altitude difference between the global position and global home is
below 0.1 and the magnitude of the *local-position* altitude reading
is below 0.01; otherwise it changes nothing. -/
theorem velocity_callback_landing_guard :
    ∀ (s : FlyerState) (tel : Telemetry),
      s.flight_state = States.LANDING →
      ((tel.globalPos.c2 - tel.globalHome.c2 < 1/10 ∧
          |tel.localPos.c2| < 1/100) →
        velocity_callback s tel =
          ({ s with flight_state := States.DISARMING }, [Cmd.disarm])) ∧
      (¬ (tel.globalPos.c2 - tel.globalHome.c2 < 1/10 ∧
          |tel.localPos.c2| < 1/100) →
        velocity_callback s tel = (s, [])) := by
  intro s tel hst
  unfold velocity_callback
  rw [if_pos hst]
  constructor
  · intro hg
    rw [if_pos hg]
    rfl
  · intro hg
    rw [if_neg hg]

/-- Witness for the amended C4 at a concrete landing state. -/
theorem velocity_callback_landing_guard_witness :
    velocity_callback ⟨⟨0, 0, 3⟩, [], true, States.LANDING⟩ telZero =
      (⟨⟨0, 0, 3⟩, [], true, States.DISARMING⟩, [Cmd.disarm]) :=
  (velocity_callback_landing_guard ⟨⟨0, 0, 3⟩, [], true, States.LANDING⟩ telZero
    rfl).1 (by norm_num [telZero])

/-- Counterexample for C9: when the takeoff target is reached, the
handler does not leave the full planner output in the queue — it
immediately pops the first waypoint inside the same event, so the
queue afterwards has 3 entries, not the planner's 4. -/
theorem takeoff_reached_does_not_store_full_box :
    local_position_callback ⟨⟨0, 0, 3⟩, [], true, States.TAKEOFF⟩
        { localPos := ⟨0, 0, -3⟩, localVel := ⟨0, 0, 0⟩,
          globalPos := ⟨0, 0, 0⟩, globalHome := ⟨0, 0, 0⟩ } =
      some (⟨⟨10, 0, 3⟩, [⟨10, 10, 3⟩, ⟨0, 10, 3⟩, ⟨0, 0, 3⟩], true,
              States.WAYPOINT⟩,
            [Cmd.cmd_position 10 0 3 0]) ∧
    ([⟨10, 10, 3⟩, ⟨0, 10, 3⟩, ⟨0, 0, 3⟩] : List Vec3) ≠
      calculate_box ⟨0, 0, 3⟩ square_size := by
  constructor
  · norm_num [local_position_callback, position_reached, allclose, invertAlt,
      waypoint_transition, calculate_box, square_size, pop0, abs_le]
    intro h
    simp at h
  · intro h
    have hl := congrArg List.length h
    simp [calculate_box] at hl

/-- C9 as amended: on a position event in TAKEOFF within tolerance of
the target, the handler runs `calculate_box` on the target with the
fixed edge length (`square_size = 10.0`), pops the planner's first
point into the target — issuing a positional command with heading 0 —
stores the remaining points as the queue, and ends in WAYPOINT. -/
theorem takeoff_reached_plans_box_and_pops_head :
    ∀ (s : FlyerState) (tel : Telemetry),
      s.flight_state = States.TAKEOFF →
      position_reached s.target_position tel.localPos →
      local_position_callback s tel =
        some ({ s with
                  target_position :=
                    (calculate_box s.target_position square_size).headD
                      s.target_position
                  all_waypoints :=
                    (calculate_box s.target_position square_size).tail
                  flight_state := States.WAYPOINT },
              [Cmd.cmd_position
                ((calculate_box s.target_position square_size).headD
                  s.target_position).c0
                ((calculate_box s.target_position square_size).headD
                  s.target_position).c1
                ((calculate_box s.target_position square_size).headD
                  s.target_position).c2
                0]) := by
  intro s tel hst hr
  unfold local_position_callback
  rw [if_pos hr, if_pos hst]
  show waypoint_transition
      { s with all_waypoints := calculate_box s.target_position square_size,
               flight_state := States.WAYPOINT } tel = _
  unfold waypoint_transition
  rw [if_pos (by simp [calculate_box])]
  simp [calculate_box, pop0]

/-- Witness for the amended C9 from the state left by the takeoff
transition. -/
theorem takeoff_reached_plans_box_and_pops_head_witness :
    local_position_callback ⟨⟨0, 0, 3⟩, [], true, States.TAKEOFF⟩
        { localPos := ⟨0, 0, -3⟩, localVel := ⟨0, 0, 0⟩,
          globalPos := ⟨0, 0, 0⟩, globalHome := ⟨0, 0, 0⟩ } =
      some (⟨(calculate_box ⟨0, 0, 3⟩ square_size).headD ⟨0, 0, 3⟩,
             (calculate_box ⟨0, 0, 3⟩ square_size).tail, true,
             States.WAYPOINT⟩,
            [Cmd.cmd_position
              ((calculate_box ⟨0, 0, 3⟩ square_size).headD ⟨0, 0, 3⟩).c0
              ((calculate_box ⟨0, 0, 3⟩ square_size).headD ⟨0, 0, 3⟩).c1
              ((calculate_box ⟨0, 0, 3⟩ square_size).headD ⟨0, 0, 3⟩).c2
              0]) :=
  takeoff_reached_plans_box_and_pops_head
    ⟨⟨0, 0, 3⟩, [], true, States.TAKEOFF⟩
    { localPos := ⟨0, 0, -3⟩, localVel := ⟨0, 0, 0⟩,
      globalPos := ⟨0, 0, 0⟩, globalHome := ⟨0, 0, 0⟩ }
    rfl (by norm_num [position_reached, allclose, invertAlt, abs_le])

/-- The guard chain of C7: each successive telemetry reading is within
tolerance of the target popped just before it (starting from the
current target). -/
def reachGuards : Vec3 → List Vec3 → List Telemetry → Prop
  | _, [], [] => True
  | tgt, w :: ws, tel :: tels =>
      position_reached tgt tel.localPos ∧ reachGuards w ws tels
  | _, _, _ => False

/-- One reached position event in WAYPOINT with a non-empty queue
pops the front into the target and issues the positional command. -/
lemma step_pop (s : FlyerState) (tel : Telemetry) (w : Vec3) (ws : List Vec3)
    (hf : s.flight_state = States.WAYPOINT)
    (hw : s.all_waypoints = w :: ws)
    (hreach : position_reached s.target_position tel.localPos) :
    step s tel EvKind.positionEv =
      some ({ s with target_position := w, all_waypoints := ws },
            [Cmd.cmd_position w.c0 w.c1 w.c2 0]) := by
  have hnt : ¬ s.flight_state = States.TAKEOFF := by
    rw [hf]
    intro h
    cases h
  simp only [step, local_position_callback]
  rw [if_pos hreach, if_neg hnt, if_pos hf]
  unfold waypoint_transition
  rw [if_pos (by rw [hw]; simp)]
  rw [hw]
  rfl

/-- Consuming a queue `ws` with reached position events pops `ws`
strictly front-to-back, issuing one heading-0 positional command per
waypoint in exactly the queue's order. -/
lemma run_pops :
    ∀ (ws : List Vec3) (s : FlyerState) (tels : List Telemetry),
      s.flight_state = States.WAYPOINT →
      s.all_waypoints = ws →
      reachGuards s.target_position ws tels →
      run s (tels.map fun tel => (EvKind.positionEv, tel)) =
        some ({ s with
                  target_position := ws.getLastD s.target_position
                  all_waypoints := [] },
              ws.map fun w => Cmd.cmd_position w.c0 w.c1 w.c2 0) := by
  intro ws
  induction ws with
  | nil =>
      intro s tels hf hw hg
      cases tels with
      | nil =>
          obtain ⟨tgt, aw, im, fs⟩ := s
          simp only at hw
          subst hw
          simp [run, List.getLastD]
      | cons t ts => exact absurd hg (by simp [reachGuards])
  | cons w ws ih =>
      intro s tels hf hw hg
      cases tels with
      | nil => exact absurd hg (by simp [reachGuards])
      | cons tel tels =>
          rw [reachGuards] at hg
          obtain ⟨hreach, hrest⟩ := hg
          have e := step_pop s tel w ws hf hw hreach
          have ihe := ih { s with target_position := w, all_waypoints := ws }
            tels hf rfl hrest
          simp only [List.map_cons, run, e, ihe]
          congr 1
          refine congrArg₂ _ ?_ rfl
          congr 1
          exact (List.getLastD_cons _ _ _).symm

/-- C7: starting in WAYPOINT with the queue holding exactly the
Waypoint Planner's output, successive reached position events pop the
planner's points strictly front-to-back, each issuing a positional
command with heading 0 in exactly the planner's order, draining the
queue. -/
theorem waypoints_consumed_in_planner_order :
    ∀ (start : Vec3) (size : ℚ) (s : FlyerState) (tels : List Telemetry),
      s.flight_state = States.WAYPOINT →
      s.all_waypoints = calculate_box start size →
      reachGuards s.target_position (calculate_box start size) tels →
      run s (tels.map fun tel => (EvKind.positionEv, tel)) =
        some ({ s with
                  target_position :=
                    (calculate_box start size).getLastD s.target_position
                  all_waypoints := [] },
              (calculate_box start size).map
                fun w => Cmd.cmd_position w.c0 w.c1 w.c2 0) := by
  intro start size s tels hf hw hg
  exact run_pops (calculate_box start size) s tels hf hw hg

/-- Witness for C7: the four planner waypoints of the reference
mission are popped in planner order. -/
theorem waypoints_consumed_in_planner_order_witness :
    run ⟨⟨0, 0, 3⟩, calculate_box ⟨0, 0, 3⟩ 10, true, States.WAYPOINT⟩
        ([{ localPos := ⟨0, 0, -3⟩, localVel := ⟨0, 0, 0⟩,
            globalPos := ⟨0, 0, 0⟩, globalHome := ⟨0, 0, 0⟩ },
          { localPos := ⟨10, 0, -3⟩, localVel := ⟨0, 0, 0⟩,
            globalPos := ⟨0, 0, 0⟩, globalHome := ⟨0, 0, 0⟩ },
          { localPos := ⟨10, 10, -3⟩, localVel := ⟨0, 0, 0⟩,
            globalPos := ⟨0, 0, 0⟩, globalHome := ⟨0, 0, 0⟩ },
          { localPos := ⟨0, 10, -3⟩, localVel := ⟨0, 0, 0⟩,
            globalPos := ⟨0, 0, 0⟩, globalHome := ⟨0, 0, 0⟩ }].map
          fun tel => (EvKind.positionEv, tel)) =
      some (⟨(calculate_box ⟨0, 0, 3⟩ 10).getLastD ⟨0, 0, 3⟩, [], true,
              States.WAYPOINT⟩,
            (calculate_box ⟨0, 0, 3⟩ 10).map
              fun w => Cmd.cmd_position w.c0 w.c1 w.c2 0) :=
  waypoints_consumed_in_planner_order ⟨0, 0, 3⟩ 10
    ⟨⟨0, 0, 3⟩, calculate_box ⟨0, 0, 3⟩ 10, true, States.WAYPOINT⟩
    _ rfl rfl
    (by norm_num [calculate_box, reachGuards, position_reached, allclose,
      invertAlt, abs_le])

/-- C1: from the initial state (MANUAL, mission flag set), a stream of
status, position and velocity events satisfying every transition guard
in order visits exactly
MANUAL, ARMING, TAKEOFF, WAYPOINT, WAYPOINT, WAYPOINT, WAYPOINT,
LANDING, DISARMING, MANUAL, and the mission flag is false at the end. -/
theorem full_mission_state_sequence
    (t1 t2 t3 p1 p2 p3 p4 p5 v1 : Telemetry)
    (h1 : position_reached ⟨0, 0, 3⟩ p1.localPos)
    (h2 : position_reached ⟨10, 0, 3⟩ p2.localPos)
    (h3 : position_reached ⟨10, 10, 3⟩ p3.localPos)
    (h4 : position_reached ⟨0, 10, 3⟩ p4.localPos)
    (h5 : position_reached ⟨0, 0, 3⟩ p5.localPos)
    (h5v : horizontal_speed_sq p5.localVel < 1)
    (h6 : v1.globalPos.c2 - v1.globalHome.c2 < 1/10)
    (h6p : |v1.localPos.c2| < 1/100) :
    initState.flight_state = States.MANUAL ∧
    initState.in_mission = true ∧
    runTrace initState
      [(EvKind.statusEv, t1), (EvKind.statusEv, t2),
       (EvKind.positionEv, p1), (EvKind.positionEv, p2),
       (EvKind.positionEv, p3), (EvKind.positionEv, p4),
       (EvKind.positionEv, p5), (EvKind.velocityEv, v1),
       (EvKind.statusEv, t3)] =
      some ([States.ARMING, States.TAKEOFF, States.WAYPOINT, States.WAYPOINT,
             States.WAYPOINT, States.WAYPOINT, States.LANDING,
             States.DISARMING, States.MANUAL],
            ⟨⟨0, 0, 3⟩, [], false, States.MANUAL⟩) := by
  refine ⟨rfl, rfl, ?_⟩
  have e1 : step initState t1 EvKind.statusEv =
      some (⟨⟨0, 0, 0⟩, [], true, States.ARMING⟩,
            [Cmd.take_control, Cmd.arm,
             Cmd.set_home_position t1.globalPos.c0 t1.globalPos.c1
               t1.globalPos.c2]) := rfl
  have e2 : step ⟨⟨0, 0, 0⟩, [], true, States.ARMING⟩ t2 EvKind.statusEv =
      some (⟨⟨0, 0, 3⟩, [], true, States.TAKEOFF⟩, [Cmd.takeoff 3]) := rfl
  have e3 : step ⟨⟨0, 0, 3⟩, [], true, States.TAKEOFF⟩ p1 EvKind.positionEv =
      some (⟨⟨10, 0, 3⟩, [⟨10, 10, 3⟩, ⟨0, 10, 3⟩, ⟨0, 0, 3⟩], true,
              States.WAYPOINT⟩,
            [Cmd.cmd_position 10 0 3 0]) := by
    simp only [step, local_position_callback]
    rw [if_pos h1]
    norm_num [waypoint_transition, calculate_box, square_size, pop0]
    intro h
    simp at h
  have e4 : step ⟨⟨10, 0, 3⟩, [⟨10, 10, 3⟩, ⟨0, 10, 3⟩, ⟨0, 0, 3⟩], true,
        States.WAYPOINT⟩ p2 EvKind.positionEv =
      some (⟨⟨10, 10, 3⟩, [⟨0, 10, 3⟩, ⟨0, 0, 3⟩], true, States.WAYPOINT⟩,
            [Cmd.cmd_position 10 10 3 0]) :=
    step_pop _ p2 ⟨10, 10, 3⟩ [⟨0, 10, 3⟩, ⟨0, 0, 3⟩] rfl rfl h2
  have e5 : step ⟨⟨10, 10, 3⟩, [⟨0, 10, 3⟩, ⟨0, 0, 3⟩], true,
        States.WAYPOINT⟩ p3 EvKind.positionEv =
      some (⟨⟨0, 10, 3⟩, [⟨0, 0, 3⟩], true, States.WAYPOINT⟩,
            [Cmd.cmd_position 0 10 3 0]) :=
    step_pop _ p3 ⟨0, 10, 3⟩ [⟨0, 0, 3⟩] rfl rfl h3
  have e6 : step ⟨⟨0, 10, 3⟩, [⟨0, 0, 3⟩], true, States.WAYPOINT⟩ p4
        EvKind.positionEv =
      some (⟨⟨0, 0, 3⟩, [], true, States.WAYPOINT⟩,
            [Cmd.cmd_position 0 0 3 0]) :=
    step_pop _ p4 ⟨0, 0, 3⟩ [] rfl rfl h4
  have e7 : step ⟨⟨0, 0, 3⟩, [], true, States.WAYPOINT⟩ p5
        EvKind.positionEv =
      some (⟨⟨0, 0, 3⟩, [], true, States.LANDING⟩, [Cmd.land]) := by
    simp only [step, local_position_callback]
    rw [if_pos h5]
    norm_num [waypoint_transition, landing_transition, h5v]
    intro h
    cases h
  have e8 : step ⟨⟨0, 0, 3⟩, [], true, States.LANDING⟩ v1
        EvKind.velocityEv =
      some (⟨⟨0, 0, 3⟩, [], true, States.DISARMING⟩, [Cmd.disarm]) := by
    simp only [step, velocity_callback]
    norm_num [disarming_transition, h6, h6p]
  have e9 : step ⟨⟨0, 0, 3⟩, [], true, States.DISARMING⟩ t3
        EvKind.statusEv =
      some (⟨⟨0, 0, 3⟩, [], false, States.MANUAL⟩,
            [Cmd.release_control, Cmd.stop]) := rfl
  simp only [runTrace, e1, e2, e3, e4, e5, e6, e7, e8, e9]

/-- Witness for C1: a concrete event stream that satisfies every
guard drives the full mission. -/
theorem full_mission_state_sequence_witness :
    initState.flight_state = States.MANUAL ∧
    initState.in_mission = true ∧
    runTrace initState
      [(EvKind.statusEv, telZero), (EvKind.statusEv, telZero),
       (EvKind.positionEv,
         { localPos := ⟨0, 0, -3⟩, localVel := ⟨0, 0, 0⟩,
           globalPos := ⟨0, 0, 0⟩, globalHome := ⟨0, 0, 0⟩ }),
       (EvKind.positionEv,
         { localPos := ⟨10, 0, -3⟩, localVel := ⟨0, 0, 0⟩,
           globalPos := ⟨0, 0, 0⟩, globalHome := ⟨0, 0, 0⟩ }),
       (EvKind.positionEv,
         { localPos := ⟨10, 10, -3⟩, localVel := ⟨0, 0, 0⟩,
           globalPos := ⟨0, 0, 0⟩, globalHome := ⟨0, 0, 0⟩ }),
       (EvKind.positionEv,
         { localPos := ⟨0, 10, -3⟩, localVel := ⟨0, 0, 0⟩,
           globalPos := ⟨0, 0, 0⟩, globalHome := ⟨0, 0, 0⟩ }),
       (EvKind.positionEv,
         { localPos := ⟨0, 0, -3⟩, localVel := ⟨0, 0, 0⟩,
           globalPos := ⟨0, 0, 0⟩, globalHome := ⟨0, 0, 0⟩ }),
       (EvKind.velocityEv, telZero),
       (EvKind.statusEv, telZero)] =
      some ([States.ARMING, States.TAKEOFF, States.WAYPOINT, States.WAYPOINT,
             States.WAYPOINT, States.WAYPOINT, States.LANDING,
             States.DISARMING, States.MANUAL],
            ⟨⟨0, 0, 3⟩, [], false, States.MANUAL⟩) :=
  full_mission_state_sequence telZero telZero telZero
    { localPos := ⟨0, 0, -3⟩, localVel := ⟨0, 0, 0⟩,
      globalPos := ⟨0, 0, 0⟩, globalHome := ⟨0, 0, 0⟩ }
    { localPos := ⟨10, 0, -3⟩, localVel := ⟨0, 0, 0⟩,
      globalPos := ⟨0, 0, 0⟩, globalHome := ⟨0, 0, 0⟩ }
    { localPos := ⟨10, 10, -3⟩, localVel := ⟨0, 0, 0⟩,
      globalPos := ⟨0, 0, 0⟩, globalHome := ⟨0, 0, 0⟩ }
    { localPos := ⟨0, 10, -3⟩, localVel := ⟨0, 0, 0⟩,
      globalPos := ⟨0, 0, 0⟩, globalHome := ⟨0, 0, 0⟩ }
    { localPos := ⟨0, 0, -3⟩, localVel := ⟨0, 0, 0⟩,
      globalPos := ⟨0, 0, 0⟩, globalHome := ⟨0, 0, 0⟩ }
    telZero
    (by norm_num [position_reached, allclose, invertAlt, abs_le])
    (by norm_num [position_reached, allclose, invertAlt, abs_le])
    (by norm_num [position_reached, allclose, invertAlt, abs_le])
    (by norm_num [position_reached, allclose, invertAlt, abs_le])
    (by norm_num [position_reached, allclose, invertAlt, abs_le])
    (by norm_num [horizontal_speed_sq, telZero])
    (by norm_num [telZero])
    (by norm_num [telZero])

end BackyardFlyer
